import Mathlib

/-!
# newshound / fetch : the alert store (`fetch/db.go`)

A shallow embedding of the `pq` implementation of the `DB` interface.

* Go values: `int64` identifiers are `Int` (the code does no arithmetic on them),
  `time.Time` is an `Int` count of nanoseconds since the Unix epoch, `[]string` is
  `List String` (a nil slice and an empty slice are both `[]`), a Go `error` result is
  an `Option Error` (`none` is `nil`).
* The store behind `sqliface.Execer` is an explicit state `Store` passed through every
  operation: the three tables, the two identifier sequences, the clock read by `NOW()`,
  the outcomes of the statements still to come (`faults`), and the statements issued so
  far (`issued`).  Every statement of `db.go` is one function on `Store` that follows
  the SQL text of that statement.
-/

namespace Fetch

/-! ## Go values -/

/-- A Go `error` built by the driver or by `errors.Wrap`. -/
inductive Error where
  | driver (msg : String)
  | wrap (cause : Error) (msg : String)
  deriving DecidableEq, Repr

/-- The message handed to `errors.Wrap`, outermost first. -/
def Error.messages : Error → List String
  | .driver _ => []
  | .wrap c m => m :: c.messages

/-- The error of the store at the bottom of a chain of `errors.Wrap`. -/
def Error.cause : Error → Error
  | .driver m => .driver m
  | .wrap c _ => c.cause

/-- The type `newshound.Sentence`, with the fields `db.go` reads. -/
structure Sentence where
  Value : String
  Phrases : List String
  deriving DecidableEq, Repr

/-- The type `newshound.NewsAlert`, with the fields `db.go` reads or writes. -/
structure NewsAlert where
  ID : Int
  Sender : String
  ArticleUrl : String
  Timestamp : Int
  TopPhrases : List String
  Tags : List String
  Subject : String
  RawBody : String
  Body : String
  Sentences : List Sentence
  TopSentence : String
  deriving DecidableEq, Repr

/-- The type `newshound.NewsEvent`: an identifier and the member alert identifiers. -/
structure NewsEvent where
  ID : Int
  AlertIDs : List Int
  deriving DecidableEq, Repr

/-- The zero value of `newshound.NewsAlert` (`var a newshound.NewsAlert`). -/
def NewsAlert.zero : NewsAlert :=
  { ID := 0, Sender := "", ArticleUrl := "", Timestamp := 0, TopPhrases := [], Tags := [],
    Subject := "", RawBody := "", Body := "", Sentences := [], TopSentence := "" }

/-! ## The store -/

/-- A row of `newshound.sender`. -/
structure SenderRow where
  id : Int
  name : String
  deriving DecidableEq, Repr

/-- A row of `newshound.alert`; `sender_id` and `top_sentence` are nullable. -/
structure AlertRow where
  id : Int
  sender_id : Option Int
  url : String
  timestamp : Int
  top_phrases : List String
  subject : String
  raw_body : String
  body : String
  top_sentence : Option Int
  deriving DecidableEq, Repr

/-- A row of `newshound.sentence`. -/
structure SentenceRow where
  id : Int
  text : String
  phrases : List String
  alert_id : Int
  deriving DecidableEq, Repr

/-- A row of the event table of the persisted layout; no statement of `db.go` names it. -/
structure EventRow where
  id : Int
  alert_ids : List Int
  deriving DecidableEq, Repr

/-- A statement sent through `sqliface.Execer`, with the arguments bound to it. -/
inductive Stmt where
  | insertAlert (sender url : String) (top_phrases : List String)
      (subject raw_body body : String)
  | insertSentence (text : String) (phrases : List String) (alert_id : Int)
  | updateTopSentence (top_sentence id : Int)
  | selectByTimeframe (startUnix endUnix : Int)
  | selectPossibleLike (start stop id : Int) (tags : List String)
  deriving DecidableEq, Repr

/-- The state of the database.  `alert` and `sentence` hold the rows in the order the
store yields them; `faults` gives, for each statement still to come, the error the store
answers it with (`none`, and an exhausted list, mean the statement succeeds). -/
structure Store where
  sender : List SenderRow
  alert : List AlertRow
  sentence : List SentenceRow
  event : List EventRow
  alert_id_seq : Int
  sentence_id_seq : Int
  now : Int
  faults : List (Option String)
  issued : List Stmt
  deriving DecidableEq, Repr

/-- The outcome of the `k`-th statement to come (`k = 0` is the next one). -/
def Store.outcome (db : Store) (k : Nat) : Option String :=
  db.faults.getD k none

/-- The store receives a statement: it is recorded and the next outcome is consumed. -/
def Store.receive (db : Store) (s : Stmt) : Store × Option Error :=
  ({ db with faults := db.faults.tail, issued := db.issued ++ [s] },
   (db.faults.headD none).map Error.driver)

/-- SQL `lower`, on the letters A to Z. -/
def lower (s : String) : String :=
  String.mk (s.data.map Char.toLower)

/-- The subquery `(SELECT ID FROM newshound.sender WHERE name = lower($1))`. -/
def Store.senderID (db : Store) (name : String) : Option Int :=
  (db.sender.find? (fun r => r.name == lower name)).map (fun r => r.id)

/-- The statement `INSERT INTO newshound.alert (...) VALUES (...) RETURNING id` followed
by `Scan(&aid)`: the row gets the next identifier of the sequence, the time `NOW()` and
no top sentence; a failing statement stores nothing. -/
def Store.insertAlert (db : Store) (sender url : String) (top_phrases : List String)
    (subject raw_body body : String) : Store × Except Error Int :=
  match db.receive (.insertAlert sender url top_phrases subject raw_body body) with
  | (db1, some e) => (db1, .error e)
  | (db1, none) =>
    let row : AlertRow :=
      { id := db1.alert_id_seq, sender_id := db1.senderID sender, url := url,
        timestamp := db1.now, top_phrases := top_phrases, subject := subject,
        raw_body := raw_body, body := body, top_sentence := none }
    ({ db1 with alert := db1.alert ++ [row], alert_id_seq := db1.alert_id_seq + 1 },
     .ok row.id)

/-- The statement `INSERT INTO newshound.sentence (text, phrases, alert_id)
VALUES ($1, $2, $3) RETURNING id` followed by `Scan(&id)`. -/
def Store.insertSentence (db : Store) (text : String) (phrases : List String)
    (alert_id : Int) : Store × Except Error Int :=
  match db.receive (.insertSentence text phrases alert_id) with
  | (db1, some e) => (db1, .error e)
  | (db1, none) =>
    let row : SentenceRow :=
      { id := db1.sentence_id_seq, text := text, phrases := phrases, alert_id := alert_id }
    ({ db1 with sentence := db1.sentence ++ [row],
                sentence_id_seq := db1.sentence_id_seq + 1 },
     .ok row.id)

/-- The statement `UPDATE newshound.alert SET top_sentence = $1 WHERE id = $2`. -/
def Store.updateTopSentence (db : Store) (top_sentence id : Int) : Store × Option Error :=
  match db.receive (.updateTopSentence top_sentence id) with
  | (db1, some e) => (db1, some e)
  | (db1, none) =>
    let rows := db1.alert.map
      (fun r => if r.id = id then { r with top_sentence := some top_sentence } else r)
    ({ db1 with alert := rows }, none)

/-- The number of nanoseconds in a second. -/
def nanosPerSecond : Int := 1000000000

/-- Go's `Time.Unix`: the whole seconds since the epoch, rounded down. -/
def unix (t : Int) : Int := Int.fdiv t nanosPerSecond

/-- SQL `to_timestamp`: the instant a whole number of seconds after the epoch. -/
def to_timestamp (seconds : Int) : Int := seconds * nanosPerSecond

/-- The condition `"timestamp" BETWEEN to_timestamp($1) AND to_timestamp($2)`. -/
def inTimeframe (startUnix endUnix : Int) (r : AlertRow) : Bool :=
  decide (to_timestamp startUnix ≤ r.timestamp) && decide (r.timestamp ≤ to_timestamp endUnix)

/-- The `SELECT ... FROM newshound.alert WHERE "timestamp" BETWEEN to_timestamp($1) AND
to_timestamp($2)` of `FindAlertsByTimeframe`: the matching rows in the order of the
table. -/
def Store.selectByTimeframe (db : Store) (startUnix endUnix : Int) :
    Store × List AlertRow × Option Error :=
  match db.receive (.selectByTimeframe startUnix endUnix) with
  | (db1, some e) => (db1, [], some e)
  | (db1, none) => (db1, db1.alert.filter (inTimeframe startUnix endUnix), none)

/-- The condition `a.timestamp between $1 and $2 AND a.id != $3 AND a.top_phrases @> $4`
as a store evaluates it that resolves the qualifier `a` to the table `newshound.alert`.
The `FROM` clause of the statement declares no such alias, so this is the reading of a
store more lenient than PostgreSQL (see `Store.selectPossibleLike`). -/
def possibleLike (start stop id : Int) (tags : List String) (r : AlertRow) : Bool :=
  decide (start ≤ r.timestamp) && decide (r.timestamp ≤ stop) && decide (r.id ≠ id)
    && tags.all (fun t => r.top_phrases.contains t)

/-- The `SELECT` of `FindPossibleLikeAlerts`.  The statement as written names the
qualifier `a`, which `FROM newshound.alert` does not declare, and binds `a.Tags` as a
bare `[]string`: a PostgreSQL store behind `database/sql` answers every such call with an
error, which is the first branch, taken when the store answers with a fault.  The second
branch is the answer of a store that accepts the statement and resolves `a` to the alert
table: the matching rows in the order of the table (the statement has no `ORDER BY`).
The definition thus covers both kinds of store; what holds of every result of it holds
of the results on PostgreSQL, while a result of the second branch is not one that a
PostgreSQL store gives. -/
def Store.selectPossibleLike (db : Store) (start stop id : Int) (tags : List String) :
    Store × List AlertRow × Option Error :=
  match db.receive (.selectPossibleLike start stop id tags) with
  | (db1, some e) => (db1, [], some e)
  | (db1, none) => (db1, db1.alert.filter (possibleLike start stop id tags), none)

/-! ## `db.go` -/

/-- The method `pq.putSentence`. -/
def putSentence (db : Store) (s : Sentence) (aid : Int) : Store × Except Error Int :=
  match db.insertSentence s.Value s.Phrases aid with
  | (db1, .error err) => (db1, .error (.wrap err "unable to insert sentence"))
  | (db1, .ok id) => (db1, .ok id)

/-- The loop `for _, s := range a.Sentences` of `PutAlert`, from the sentences still to
store and the current value of `tid`. -/
def putSentences (a : NewsAlert) (aid : Int) :
    List Sentence → Int → Store → Store × Except Error Int
  | [], tid, db => (db, .ok tid)
  | s :: rest, tid, db =>
    match putSentence db s aid with
    | (db1, .error err) => (db1, .error (.wrap err "unable to insert sentence"))
    | (db1, .ok sid) =>
      putSentences a aid rest (if s.Value = a.TopSentence then sid else tid) db1

/-- The method `pq.PutAlert`: the store, the alert behind the pointer `a` and the
returned error, after the call. -/
def PutAlert (db : Store) (a : NewsAlert) : Store × NewsAlert × Option Error :=
  match db.insertAlert a.Sender a.ArticleUrl a.TopPhrases a.Subject a.RawBody a.Body with
  | (db1, .error err) => (db1, a, some (.wrap err "unable to insert alert"))
  | (db1, .ok aid) =>
    match putSentences a aid a.Sentences 0 db1 with
    | (db2, .error err) => (db2, a, some err)
    | (db2, .ok tid) =>
      match db2.updateTopSentence tid aid with
      | (db3, some err) => (db3, a, some (.wrap err "unable to set top sentence ID"))
      | (db3, none) => (db3, a, none)

/-- One `rows.Scan(&a.ID, &a.Sender, &a.ArticleUrl, &a.Timestamp, &phrases, &a.Subject,
&a.RawBody, &a.Body)` and `a.TopPhrases = phrases`: the integer `sender_id` is converted
to the string `Sender`, and a NULL `sender_id` cannot be converted. -/
def scanAlert (r : AlertRow) : Except Error NewsAlert :=
  match r.sender_id with
  | none => .error (.driver "converting NULL to string is unsupported")
  | some sid =>
    .ok { NewsAlert.zero with
          ID := r.id, Sender := toString sid, ArticleUrl := r.url, Timestamp := r.timestamp,
          TopPhrases := r.top_phrases, Subject := r.subject, RawBody := r.raw_body,
          Body := r.body }

/-- The loop `for rows.Next()` of `scanAlerts`, from the rows still to read and the
alerts appended so far. -/
def scanLoop : List AlertRow → List NewsAlert → List NewsAlert × Option Error
  | [], alerts => (alerts, none)
  | r :: rows, alerts =>
    match scanAlert r with
    | .error err => ([], some (.wrap err "unable to scan alert"))
    | .ok a => scanLoop rows (alerts ++ [a])

/-- The function `scanAlerts`. -/
def scanAlerts (rows : List AlertRow) (err : Option Error) : List NewsAlert × Option Error :=
  match err with
  | some e => ([], some (.wrap e "unable to run query"))
  | none => scanLoop rows []

/-- The method `pq.FindAlertsByTimeframe`. -/
def FindAlertsByTimeframe (db : Store) (start stop : Int) :
    Store × List NewsAlert × Option Error :=
  match db.selectByTimeframe (unix start) (unix stop) with
  | (db1, rows, err) => (db1, scanAlerts rows err)

/-- The method `pq.FindPossibleLikeAlerts`; `eventTimeframe` is the package constant of
that name, declared outside `db.go`. -/
def FindPossibleLikeAlerts (eventTimeframe : Int) (db : Store) (a : NewsAlert) :
    Store × List NewsAlert × Option Error :=
  let start := a.Timestamp + (-eventTimeframe)
  let stop := a.Timestamp + eventTimeframe
  match db.selectPossibleLike start stop a.ID a.Tags with
  | (db1, rows, err) => (db1, scanAlerts rows err)

/-- The method `pq.FindEventsByAlertIDs`: `return nil, nil`. -/
def FindEventsByAlertIDs (db : Store) (_ids : List Int) :
    Store × List NewsEvent × Option Error :=
  (db, [], none)

/-- The method `pq.UpsertEvent`: `return nil`. -/
def UpsertEvent (db : Store) (_e : NewsEvent) : Store × Option Error :=
  (db, none)

/-- A store with no rows, whose sequences start at 1 and whose statements all succeed. -/
def Store.empty : Store :=
  { sender := [], alert := [], sentence := [], event := [], alert_id_seq := 1,
    sentence_id_seq := 1, now := 0, faults := [], issued := [] }

/-! ## Specification-side helpers and sample inputs -/

/-- The sentence rows a store whose sequence stands at `seq` creates for the sentences
`ss` of the alert `aid`, in order. -/
def sentenceRowsFrom (aid : Int) : Int → List Sentence → List SentenceRow
  | _, [] => []
  | seq, s :: rest =>
    { id := seq, text := s.Value, phrases := s.Phrases, alert_id := aid }
      :: sentenceRowsFrom aid (seq + 1) rest

/-- The value of `tid` after the loop of `PutAlert` when every insert succeeds. -/
def topIDFrom (top : String) : Int → List Sentence → Int → Int
  | _, [], tid => tid
  | seq, s :: rest, tid => topIDFrom top (seq + 1) rest (if s.Value = top then seq else tid)

/-- The alert row that `PutAlert` inserts first, before the top sentence is set. -/
def newAlertRow (db : Store) (a : NewsAlert) : AlertRow :=
  { id := db.alert_id_seq, sender_id := db.senderID a.Sender, url := a.ArticleUrl,
    timestamp := db.now, top_phrases := a.TopPhrases, subject := a.Subject,
    raw_body := a.RawBody, body := a.Body, top_sentence := none }

/-- The store after the first statement of `PutAlert` has succeeded. -/
def afterInsertAlert (db : Store) (a : NewsAlert) : Store :=
  { db with
    alert := db.alert ++ [newAlertRow db a],
    alert_id_seq := db.alert_id_seq + 1,
    faults := db.faults.tail,
    issued := db.issued ++
      [Stmt.insertAlert a.Sender a.ArticleUrl a.TopPhrases a.Subject a.RawBody a.Body] }

/-- The store after the loop of `PutAlert` has stored every sentence. -/
def afterSentences (db : Store) (a : NewsAlert) : Store :=
  { afterInsertAlert db a with
    sentence := db.sentence ++ sentenceRowsFrom db.alert_id_seq db.sentence_id_seq a.Sentences,
    sentence_id_seq := db.sentence_id_seq + a.Sentences.length,
    faults := (afterInsertAlert db a).faults.drop a.Sentences.length,
    issued := (afterInsertAlert db a).issued ++
      a.Sentences.map (fun s => Stmt.insertSentence s.Value s.Phrases db.alert_id_seq) }

/-- The value of `tid` that `PutAlert` binds to the `UPDATE` when every insert succeeds. -/
def topID (db : Store) (a : NewsAlert) : Int :=
  topIDFrom a.TopSentence db.sentence_id_seq a.Sentences 0

/-- The store after a `PutAlert` whose statements all succeed. -/
def afterPutAlert (db : Store) (a : NewsAlert) : Store :=
  { afterSentences db a with
    alert := (afterSentences db a).alert.map
      (fun r => if r.id = db.alert_id_seq
        then { r with top_sentence := some (topID db a) } else r),
    faults := (afterSentences db a).faults.tail,
    issued := (afterSentences db a).issued ++
      [Stmt.updateTopSentence (topID db a) db.alert_id_seq] }

/-- The error `PutAlert` returns when the statement of index `k` (0 the alert insert,
1 to `n` the sentence inserts, `n + 1` the update) fails with the message `msg`. -/
def stepError (n k : Nat) (msg : String) : Error :=
  if k = 0 then .wrap (.driver msg) "unable to insert alert"
  else if k ≤ n then
    .wrap (.wrap (.driver msg) "unable to insert sentence") "unable to insert sentence"
  else .wrap (.driver msg) "unable to set top sentence ID"

/-- The alert one row scans to, when the scan succeeds. -/
def scanned (r : AlertRow) : Option NewsAlert :=
  match scanAlert r with
  | .ok a => some a
  | .error _ => none

/-- A store that knows one sender and holds no alert. -/
def sampleStore : Store :=
  { Store.empty with sender := [{ id := 7, name := "nyt" }], now := 5000 }

/-- An alert of three sentences, two of which carry the text of the top sentence. -/
def sampleAlert : NewsAlert :=
  { NewsAlert.zero with
    Sender := "NYT", Timestamp := 5000,
    TopPhrases := ["storm", "coast"], Tags := ["storm"],
    Sentences := [{ Value := "A storm hit.", Phrases := ["storm"] },
                  { Value := "Later.", Phrases := [] },
                  { Value := "A storm hit.", Phrases := ["storm"] }],
    TopSentence := "A storm hit." }

/-- An alert whose top sentence is the text of none of its sentences. -/
def unmatchedAlert : NewsAlert :=
  { sampleAlert with TopSentence := "Nothing of the kind." }

/-- A store holding two alerts that both carry the phrase `storm`, the later one first. -/
def unorderedStore : Store :=
  { sampleStore with
    alert := [{ id := 1, sender_id := some 7, url := "", timestamp := 20,
                top_phrases := ["storm", "coast"], subject := "", raw_body := "", body := "",
                top_sentence := none },
              { id := 2, sender_id := some 7, url := "", timestamp := 10,
                top_phrases := ["storm"], subject := "", raw_body := "", body := "",
                top_sentence := none }],
    alert_id_seq := 3 }

/-- An alert tagged `storm` at time 15, under an identifier of its own. -/
def probeAlert : NewsAlert :=
  { NewsAlert.zero with ID := 9, Timestamp := 15, Tags := ["storm"] }

/-- The alert `probeAlert` under the identifier of the second row of `unorderedStore`. -/
def storedProbe : NewsAlert :=
  { probeAlert with ID := 2 }

/-- The alert that the first row of `unorderedStore` scans to. -/
def firstScanned : NewsAlert :=
  { NewsAlert.zero with
    ID := 1, Sender := "7", Timestamp := 20, TopPhrases := ["storm", "coast"] }

/-- A store holding one alert, stored half a second after the tenth second. -/
def subsecondStore : Store :=
  { sampleStore with
    alert := [{ id := 1, sender_id := some 7, url := "", timestamp := 10500000000,
                top_phrases := ["storm"], subject := "", raw_body := "", body := "",
                top_sentence := none }],
    alert_id_seq := 2 }

/-! ## Lemmas on the store -/

theorem receive_snd (db : Store) (s : Stmt) :
    (db.receive s).2 = (db.outcome 0).map Error.driver := by
  unfold Store.receive Store.outcome
  cases h : db.faults with
  | nil => simp
  | cons f fs => simp

theorem insertSentence_ok (db : Store) (text : String) (phrases : List String) (aid : Int)
    (h : db.outcome 0 = none) :
    db.insertSentence text phrases aid =
      ({ db with
          sentence := db.sentence ++
            [{ id := db.sentence_id_seq, text := text, phrases := phrases, alert_id := aid }],
          sentence_id_seq := db.sentence_id_seq + 1,
          faults := db.faults.tail,
          issued := db.issued ++ [Stmt.insertSentence text phrases aid] },
       .ok db.sentence_id_seq) := by
  have h2 := receive_snd db (Stmt.insertSentence text phrases aid)
  rw [h] at h2
  unfold Store.insertSentence
  generalize hr : db.receive (Stmt.insertSentence text phrases aid) = r at h2
  obtain ⟨db1, e⟩ := r
  simp only [Option.map_none'] at h2
  subst h2
  unfold Store.receive at hr
  simp only [Prod.mk.injEq] at hr
  obtain ⟨hdb, -⟩ := hr
  subst hdb
  rfl

theorem insertSentence_fail (db : Store) (text : String) (phrases : List String) (aid : Int)
    (msg : String) (h : db.outcome 0 = some msg) :
    db.insertSentence text phrases aid =
      ({ db with
          faults := db.faults.tail,
          issued := db.issued ++ [Stmt.insertSentence text phrases aid] },
       .error (.driver msg)) := by
  have h2 := receive_snd db (Stmt.insertSentence text phrases aid)
  rw [h] at h2
  unfold Store.insertSentence
  generalize hr : db.receive (Stmt.insertSentence text phrases aid) = r at h2
  obtain ⟨db1, e⟩ := r
  simp only [Option.map_some'] at h2
  subst h2
  unfold Store.receive at hr
  simp only [Prod.mk.injEq] at hr
  obtain ⟨hdb, -⟩ := hr
  subst hdb
  rfl

theorem outcome_tail (db : Store) (sentence : List SentenceRow) (seq : Int)
    (issued : List Stmt) (k : Nat) :
    Store.outcome { db with sentence := sentence, sentence_id_seq := seq,
                            faults := db.faults.tail, issued := issued } k
      = db.outcome (k + 1) := by
  unfold Store.outcome
  cases h : db.faults with
  | nil => simp
  | cons f fs => simp

/-- When the inserts all succeed, the loop of `PutAlert` appends one row per sentence
and ends with the identifier of the last sentence whose text is the top sentence. -/
theorem putSentences_ok (a : NewsAlert) (aid : Int) (ss : List Sentence) :
    ∀ (tid : Int) (db : Store), (∀ k, k < ss.length → db.outcome k = none) →
      putSentences a aid ss tid db =
        ({ db with
            sentence := db.sentence ++ sentenceRowsFrom aid db.sentence_id_seq ss,
            sentence_id_seq := db.sentence_id_seq + ss.length,
            faults := db.faults.drop ss.length,
            issued := db.issued ++ ss.map (fun s => Stmt.insertSentence s.Value s.Phrases aid) },
         .ok (topIDFrom a.TopSentence db.sentence_id_seq ss tid)) := by
  induction ss with
  | nil =>
    intro tid db _
    simp [putSentences, sentenceRowsFrom, topIDFrom]
  | cons s rest ih =>
    intro tid db h
    have h0 : db.outcome 0 = none := h 0 (by simp)
    unfold putSentences putSentence
    rw [insertSentence_ok db s.Value s.Phrases aid h0]
    simp only
    rw [ih]
    · simp only [sentenceRowsFrom, topIDFrom, List.length_cons, List.map_cons,
        List.append_assoc, List.singleton_append, List.drop_succ_cons, Nat.cast_add,
        Nat.cast_one, Prod.mk.injEq, and_true]
      congr 1
      · ring
      · cases db.faults <;> simp
    · intro k hk
      rw [outcome_tail]
      exact h (k + 1) (by simpa using hk)

/-- When an insert fails, the loop of `PutAlert` stops there: the sentences before it
are stored, the failing statement is the last one issued, and the error of the store
comes back wrapped twice. -/
theorem putSentences_fail (a : NewsAlert) (aid : Int) (ss : List Sentence) :
    ∀ (tid : Int) (db : Store) (k : Nat) (msg : String), k < ss.length →
      (∀ j, j < k → db.outcome j = none) → db.outcome k = some msg →
      ∃ db1 : Store,
        putSentences a aid ss tid db =
          (db1, .error (.wrap (.wrap (.driver msg) "unable to insert sentence")
                          "unable to insert sentence")) ∧
        db1.alert = db.alert ∧
        db1.sentence = db.sentence ++ sentenceRowsFrom aid db.sentence_id_seq (ss.take k) ∧
        db1.issued = db.issued ++
          (ss.take (k + 1)).map (fun s => Stmt.insertSentence s.Value s.Phrases aid) := by
  induction ss with
  | nil =>
    intro tid db k msg hk
    simp at hk
  | cons s rest ih =>
    intro tid db k msg hk hbefore hat
    cases k with
    | zero =>
      unfold putSentences putSentence
      rw [insertSentence_fail db s.Value s.Phrases aid msg hat]
      simp [sentenceRowsFrom]
    | succ k =>
      have h0 : db.outcome 0 = none := hbefore 0 (by omega)
      unfold putSentences putSentence
      rw [insertSentence_ok db s.Value s.Phrases aid h0]
      simp only
      obtain ⟨db1, h1, h2, h3, h4⟩ := ih (if s.Value = a.TopSentence then db.sentence_id_seq else tid)
        { db with
          sentence := db.sentence ++
            [{ id := db.sentence_id_seq, text := s.Value, phrases := s.Phrases,
               alert_id := aid }],
          sentence_id_seq := db.sentence_id_seq + 1,
          faults := db.faults.tail,
          issued := db.issued ++ [Stmt.insertSentence s.Value s.Phrases aid] }
        k msg (by simpa using hk)
        (by
          intro j hj
          rw [outcome_tail]
          exact hbefore (j + 1) (by omega))
        (by
          rw [outcome_tail]
          exact hat)
      refine ⟨db1, h1, ?_, ?_, ?_⟩
      · simpa using h2
      · simpa [sentenceRowsFrom] using h3
      · simpa using h4

theorem outcome_of_drop (db db1 : Store) (n k : Nat) (h : db1.faults = db.faults.drop n) :
    db1.outcome k = db.outcome (n + k) := by
  unfold Store.outcome
  rw [h]
  simp [List.getD_eq_getElem?_getD, List.getElem?_drop]

theorem receive_eq (db : Store) (s : Stmt) :
    db.receive s =
      ({ db with faults := db.faults.tail, issued := db.issued ++ [s] },
       (db.outcome 0).map Error.driver) := by
  unfold Store.receive Store.outcome
  cases db.faults <;> simp

theorem insertAlert_ok (db : Store) (a : NewsAlert) (h : db.outcome 0 = none) :
    db.insertAlert a.Sender a.ArticleUrl a.TopPhrases a.Subject a.RawBody a.Body =
      (afterInsertAlert db a, .ok db.alert_id_seq) := by
  unfold Store.insertAlert
  rw [receive_eq, h]
  rfl

theorem insertAlert_fail (db : Store) (a : NewsAlert) (msg : String)
    (h : db.outcome 0 = some msg) :
    db.insertAlert a.Sender a.ArticleUrl a.TopPhrases a.Subject a.RawBody a.Body =
      ({ db with
          faults := db.faults.tail,
          issued := db.issued ++
            [Stmt.insertAlert a.Sender a.ArticleUrl a.TopPhrases a.Subject a.RawBody a.Body] },
       .error (.driver msg)) := by
  unfold Store.insertAlert
  rw [receive_eq, h]
  rfl

theorem updateTopSentence_ok (db : Store) (tid aid : Int) (h : db.outcome 0 = none) :
    db.updateTopSentence tid aid =
      ({ db with
          alert := db.alert.map
            (fun r => if r.id = aid then { r with top_sentence := some tid } else r),
          faults := db.faults.tail,
          issued := db.issued ++ [Stmt.updateTopSentence tid aid] },
       none) := by
  unfold Store.updateTopSentence
  rw [receive_eq, h]
  rfl

theorem updateTopSentence_fail (db : Store) (tid aid : Int) (msg : String)
    (h : db.outcome 0 = some msg) :
    db.updateTopSentence tid aid =
      ({ db with
          faults := db.faults.tail,
          issued := db.issued ++ [Stmt.updateTopSentence tid aid] },
       some (.driver msg)) := by
  unfold Store.updateTopSentence
  rw [receive_eq, h]
  rfl

theorem outcome_afterInsertAlert (db : Store) (a : NewsAlert) (k : Nat) :
    (afterInsertAlert db a).outcome k = db.outcome (k + 1) := by
  unfold Store.outcome afterInsertAlert
  cases db.faults <;> simp

theorem putSentences_afterInsertAlert (db : Store) (a : NewsAlert)
    (h : ∀ k, k < a.Sentences.length → db.outcome (k + 1) = none) :
    putSentences a db.alert_id_seq a.Sentences 0 (afterInsertAlert db a) =
      (afterSentences db a, .ok (topID db a)) := by
  rw [putSentences_ok]
  · rfl
  · intro k hk
    rw [outcome_afterInsertAlert]
    exact h k hk

theorem outcome_afterSentences (db : Store) (a : NewsAlert) (k : Nat) :
    (afterSentences db a).outcome k = db.outcome (a.Sentences.length + 1 + k) := by
  rw [outcome_of_drop (afterInsertAlert db a) (afterSentences db a) a.Sentences.length k rfl,
    outcome_afterInsertAlert]
  congr 1
  omega

/-- A `PutAlert` whose statements all succeed returns nil and leaves `afterPutAlert`. -/
theorem PutAlert_ok (db : Store) (a : NewsAlert)
    (h : ∀ k, k < a.Sentences.length + 2 → db.outcome k = none) :
    PutAlert db a = (afterPutAlert db a, a, none) := by
  unfold PutAlert
  rw [insertAlert_ok db a (h 0 (by omega))]
  simp only
  rw [putSentences_afterInsertAlert db a (fun k hk => h (k + 1) (by omega))]
  simp only
  rw [updateTopSentence_ok]
  · rfl
  · rw [outcome_afterSentences]
    exact h _ (by omega)

theorem sentenceRowsFrom_length (aid : Int) (ss : List Sentence) :
    ∀ seq : Int, (sentenceRowsFrom aid seq ss).length = ss.length := by
  induction ss with
  | nil => intro seq; rfl
  | cons s rest ih => intro seq; simp [sentenceRowsFrom, ih]

theorem sentenceRowsFrom_alert_id (aid : Int) (ss : List Sentence) :
    ∀ seq : Int, ∀ r ∈ sentenceRowsFrom aid seq ss, r.alert_id = aid := by
  induction ss with
  | nil => intro seq r hr; simp [sentenceRowsFrom] at hr
  | cons s rest ih =>
    intro seq r hr
    simp only [sentenceRowsFrom, List.mem_cons] at hr
    rcases hr with rfl | hr
    · rfl
    · exact ih _ r hr

theorem sentenceRowsFrom_text (aid : Int) (ss : List Sentence) :
    ∀ seq : Int, (sentenceRowsFrom aid seq ss).map (fun r => r.text)
      = ss.map (fun s => s.Value) := by
  induction ss with
  | nil => intro seq; rfl
  | cons s rest ih => intro seq; simp [sentenceRowsFrom, ih]

/-- The loop ends either with the identifier of a stored sentence whose text is the top
sentence, or, when no sentence has that text, with the value `tid` had at the start. -/
theorem topIDFrom_spec (aid : Int) (top : String) (ss : List Sentence) :
    ∀ (seq tid : Int),
      (∃ r ∈ sentenceRowsFrom aid seq ss, r.id = topIDFrom top seq ss tid ∧ r.text = top) ∨
      (topIDFrom top seq ss tid = tid ∧ ∀ s ∈ ss, s.Value ≠ top) := by
  induction ss with
  | nil => intro seq tid; right; simp [topIDFrom]
  | cons s rest ih =>
    intro seq tid
    simp only [sentenceRowsFrom, topIDFrom]
    rcases ih (seq + 1) (if s.Value = top then seq else tid) with ⟨r, hr, h1, h2⟩ | ⟨h1, h2⟩
    · left
      exact ⟨r, List.mem_cons_of_mem _ hr, h1, h2⟩
    · by_cases hs : s.Value = top
      · left
        refine ⟨_, List.mem_cons_self _ _, ?_, hs⟩
        rw [h1, if_pos hs]
      · right
        refine ⟨?_, ?_⟩
        · rw [h1, if_neg hs]
        · intro x hx
          rcases List.mem_cons.mp hx with rfl | hx
          · exact hs
          · exact h2 x hx

/-- When the statement of index `k` is the first to fail, `PutAlert` returns the wrapped
error of that step and has issued `k + 1` statements; when the failing statement is not
the alert insert, the inserted alert row stays in the table, its `top_sentence` NULL. -/
theorem PutAlert_fail (db : Store) (a : NewsAlert) (k : Nat) (msg : String)
    (hk : k < a.Sentences.length + 2)
    (hbefore : ∀ j, j < k → db.outcome j = none) (hat : db.outcome k = some msg) :
    ∃ db1 : Store,
      PutAlert db a = (db1, a, some (stepError a.Sentences.length k msg)) ∧
      db1.issued.length = db.issued.length + (k + 1) ∧
      (0 < k → db1.alert = db.alert ++ [newAlertRow db a]) := by
  unfold PutAlert
  cases k with
  | zero =>
    rw [insertAlert_fail db a msg hat]
    exact ⟨_, rfl, by simp, by simp⟩
  | succ j =>
    rw [insertAlert_ok db a (hbefore 0 (by omega))]
    simp only
    by_cases hj : j < a.Sentences.length
    · obtain ⟨db1, h1, h2, -, h4⟩ := putSentences_fail a db.alert_id_seq a.Sentences 0
        (afterInsertAlert db a) j msg hj
        (by
          intro i hi
          rw [outcome_afterInsertAlert]
          exact hbefore (i + 1) (by omega))
        (by
          rw [outcome_afterInsertAlert]
          exact hat)
      rw [h1]
      refine ⟨db1, ?_, ?_, ?_⟩
      · simp only [stepError]
        rw [if_neg (by omega), if_pos (by omega)]
      · rw [h4]
        simp only [afterInsertAlert, List.length_append, List.length_map, List.length_take,
          List.length_singleton]
        omega
      · intro _
        rw [h2]
        rfl
    · have hj2 : j = a.Sentences.length := by omega
      rw [putSentences_afterInsertAlert db a (fun i hi => hbefore (i + 1) (by omega))]
      simp only
      rw [updateTopSentence_fail _ _ _ msg]
      · refine ⟨{ afterSentences db a with
            faults := (afterSentences db a).faults.tail,
            issued := (afterSentences db a).issued ++
              [Stmt.updateTopSentence (topID db a) db.alert_id_seq] }, ?_, ?_, ?_⟩
        · simp only [stepError]
          rw [if_neg (by omega), if_neg (by omega)]
        · simp only [afterSentences, afterInsertAlert, List.length_append, List.length_map,
            List.length_singleton]
          omega
        · intro _
          rfl
      · rw [outcome_afterSentences]
        rw [← hj2]
        exact hat

/-- A `PutAlert` that fails after the alert insert leaves the alert table one row longer
than it found it. -/
theorem PutAlert_fail_not_rolled_back (db : Store) (a : NewsAlert) (k : Nat) (msg : String)
    (hk : k < a.Sentences.length + 2) (hpos : 0 < k)
    (hbefore : ∀ j, j < k → db.outcome j = none) (hat : db.outcome k = some msg) :
    (PutAlert db a).2.2 ≠ none ∧ (PutAlert db a).1.alert = db.alert ++ [newAlertRow db a] := by
  obtain ⟨db1, h1, -, h3⟩ := PutAlert_fail db a k msg hk hbefore hat
  rw [h1]
  exact ⟨by simp, h3 hpos⟩

/-- When no sentence carries the top sentence and every statement succeeds, `PutAlert`
sets the `top_sentence` of the new row to 0. -/
theorem PutAlert_unmatched_top_sentence (db : Store) (a : NewsAlert)
    (hok : ∀ k, k < a.Sentences.length + 2 → db.outcome k = none)
    (hno : ∀ s ∈ a.Sentences, s.Value ≠ a.TopSentence) :
    (PutAlert db a).2.2 = none ∧
    { newAlertRow db a with top_sentence := some 0 } ∈ (PutAlert db a).1.alert := by
  rw [PutAlert_ok db a hok]
  refine ⟨rfl, ?_⟩
  have htop : topID db a = 0 := by
    rcases topIDFrom_spec db.alert_id_seq a.TopSentence a.Sentences db.sentence_id_seq 0 with
      ⟨r, hr, -, h2⟩ | ⟨h1, -⟩
    · exfalso
      have hmem : r.text ∈ (sentenceRowsFrom db.alert_id_seq db.sentence_id_seq
          a.Sentences).map (fun r => r.text) := List.mem_map_of_mem _ hr
      rw [sentenceRowsFrom_text] at hmem
      obtain ⟨s, hs, hval⟩ := List.mem_map.mp hmem
      exact hno s hs (hval.trans h2)
    · exact h1
  simp [afterPutAlert, afterSentences, afterInsertAlert, newAlertRow, htop]

/-! ## Lemmas on the read path -/

theorem scanned_fields (r : AlertRow) (x : NewsAlert) (h : scanned r = some x) :
    x.ID = r.id ∧ x.Timestamp = r.timestamp ∧ x.TopPhrases = r.top_phrases := by
  unfold scanned scanAlert at h
  cases hs : r.sender_id with
  | none => rw [hs] at h; simp at h
  | some sid =>
    rw [hs] at h
    simp only [Option.some.injEq] at h
    subst h
    exact ⟨rfl, rfl, rfl⟩

/-- The loop of `scanAlerts` returns either an error and no alert, or no error and the
alerts appended so far followed by one alert per row, in the order of the rows. -/
theorem scanLoop_spec (rows : List AlertRow) :
    ∀ acc : List NewsAlert,
      ((scanLoop rows acc).2 ≠ none ∧ (scanLoop rows acc).1 = []) ∨
      ((scanLoop rows acc).2 = none ∧ (scanLoop rows acc).1 = acc ++ rows.filterMap scanned) := by
  induction rows with
  | nil => intro acc; right; simp [scanLoop]
  | cons r rest ih =>
    intro acc
    unfold scanLoop
    cases hs : scanAlert r with
    | error e => left; simp
    | ok x =>
      simp only
      have hx : scanned r = some x := by simp [scanned, hs]
      rcases ih (acc ++ [x]) with h | h
      · left; exact h
      · right
        refine ⟨h.1, ?_⟩
        rw [h.2, List.filterMap_cons, hx]
        simp

theorem scanAlerts_mem (rows : List AlertRow) (err : Option Error) (x : NewsAlert)
    (hx : x ∈ (scanAlerts rows err).1) : ∃ r ∈ rows, scanned r = some x := by
  unfold scanAlerts at hx
  cases err with
  | some e => simp at hx
  | none =>
    simp only at hx
    rcases scanLoop_spec rows [] with h | h
    · rw [h.2] at hx; simp at hx
    · rw [h.2] at hx
      simpa using hx

theorem selectPossibleLike_rows (db : Store) (start stop id : Int) (tags : List String)
    (r : AlertRow) (hr : r ∈ (db.selectPossibleLike start stop id tags).2.1) :
    r ∈ db.alert ∧ possibleLike start stop id tags r = true := by
  unfold Store.selectPossibleLike at hr
  rw [receive_eq] at hr
  cases ho : db.outcome 0 with
  | some m => rw [ho] at hr; simp at hr
  | none =>
    rw [ho] at hr
    simp only [Option.map_none', List.mem_filter] at hr
    exact hr

theorem selectPossibleLike_issued (db : Store) (start stop id : Int) (tags : List String) :
    (db.selectPossibleLike start stop id tags).1.issued =
      db.issued ++ [Stmt.selectPossibleLike start stop id tags] := by
  unfold Store.selectPossibleLike
  rw [receive_eq]
  cases db.outcome 0 <;> rfl

/-! ## The write path: `PutAlert` -/

/-- C1: when every statement of `PutAlert` succeeds, `PutAlert` returns nil, the alert
table gains exactly one row, carrying the generated identifier, the sentence table gains
exactly one row per sentence of the alert, with the texts of the sentences in order, each
referencing the generated identifier, and, when some sentence has the text `TopSentence`,
the `top_sentence` of the new alert row is the identifier of one of these new sentence
rows, whose text is `TopSentence`. -/
theorem PutAlert_stores_alert_and_sentences (db : Store) (a : NewsAlert)
    (hok : ∀ k, k < a.Sentences.length + 2 → db.outcome k = none) :
    (PutAlert db a).2.2 = none ∧
    ∃ (arow : AlertRow) (srows : List SentenceRow),
      arow.id = db.alert_id_seq ∧
      (PutAlert db a).1.alert =
        db.alert.map (fun r =>
          if r.id = arow.id then { r with top_sentence := arow.top_sentence } else r)
        ++ [arow] ∧
      (PutAlert db a).1.alert.length = db.alert.length + 1 ∧
      (PutAlert db a).1.sentence = db.sentence ++ srows ∧
      srows.length = a.Sentences.length ∧
      srows.map (fun r => r.text) = a.Sentences.map (fun s => s.Value) ∧
      (∀ r ∈ srows, r.alert_id = arow.id) ∧
      ((∃ s ∈ a.Sentences, s.Value = a.TopSentence) →
        ∃ r ∈ srows, arow.top_sentence = some r.id ∧ r.text = a.TopSentence ∧
          r.alert_id = arow.id) := by
  rw [PutAlert_ok db a hok]
  refine ⟨rfl, { newAlertRow db a with top_sentence := some (topID db a) },
    sentenceRowsFrom db.alert_id_seq db.sentence_id_seq a.Sentences, rfl, ?_, ?_, rfl,
    sentenceRowsFrom_length _ _ _, sentenceRowsFrom_text _ _ _, ?_, ?_⟩
  · simp [afterPutAlert, afterSentences, afterInsertAlert, newAlertRow]
  · simp [afterPutAlert, afterSentences, afterInsertAlert]
  · intro r hr
    exact sentenceRowsFrom_alert_id _ _ _ r hr
  · rintro ⟨s, hs, hval⟩
    rcases topIDFrom_spec db.alert_id_seq a.TopSentence a.Sentences db.sentence_id_seq 0 with
      ⟨r, hr, h1, h2⟩ | ⟨-, h2⟩
    · refine ⟨r, hr, ?_, h2, sentenceRowsFrom_alert_id _ _ _ r hr⟩
      simp [topID, h1]
    · exact absurd hval (h2 s hs)

/-- C1 at `sampleAlert`, whose first and third sentences carry the top sentence. -/
theorem PutAlert_stores_alert_and_sentences_witness :
    (∀ k, k < sampleAlert.Sentences.length + 2 → sampleStore.outcome k = none) ∧
    (PutAlert sampleStore sampleAlert).2.2 = none :=
  ⟨by decide, (PutAlert_stores_alert_and_sentences sampleStore sampleAlert (by decide)).1⟩

/-- C2: `PutAlert` is not atomic.  On `sampleStore`, when the alert insert succeeds and
the first sentence insert fails, `PutAlert` returns an error, and the alert table, empty
before the call, is left holding the new alert row, with none of its sentences stored and
its `top_sentence` NULL. -/
theorem PutAlert_leaves_alert_without_sentences :
    (PutAlert { sampleStore with faults := [none, some "connection reset"] } sampleAlert).2.2
      = some (.wrap (.wrap (.driver "connection reset") "unable to insert sentence")
          "unable to insert sentence") ∧
    sampleStore.alert = [] ∧
    (PutAlert { sampleStore with faults := [none, some "connection reset"] } sampleAlert).1.alert
      = [{ id := 1, sender_id := some 7, url := "", timestamp := 5000,
           top_phrases := ["storm", "coast"], subject := "", raw_body := "", body := "",
           top_sentence := none }] ∧
    (PutAlert { sampleStore with faults := [none, some "connection reset"] } sampleAlert).1.sentence
      = [] := by
  decide

/-- C3: when no sentence carries the top sentence, `PutAlert` binds the zero value of
`tid` to the `UPDATE`.  On `sampleStore`, `PutAlert` of `unmatchedAlert` returns nil, has
issued `UPDATE ... SET top_sentence = 0 WHERE id = 1` last, and leaves the `top_sentence`
of the new row at the identifier 0, not NULL; no sentence row has the identifier 0. -/
theorem PutAlert_unmatched_sets_zero :
    (∀ s ∈ unmatchedAlert.Sentences, s.Value ≠ unmatchedAlert.TopSentence) ∧
    (PutAlert sampleStore unmatchedAlert).2.2 = none ∧
    (PutAlert sampleStore unmatchedAlert).1.issued.getLast? =
      some (Stmt.updateTopSentence 0 1) ∧
    (PutAlert sampleStore unmatchedAlert).1.alert.map (fun r => (r.id, r.top_sentence))
      = [(1, some 0)] ∧
    (PutAlert sampleStore unmatchedAlert).1.sentence.map (fun r => r.id) = [1, 2, 3] := by
  decide

/-- C9: `PutAlert` returns an error exactly when one of its statements (the alert
insert, a sentence insert, the top-sentence update) fails; when the statement of index
`k` is the first to fail, with the message `msg`, the returned error wraps the error of
the store (`unable to insert alert` for the alert insert, `unable to insert sentence`
for a sentence insert, `unable to set top sentence ID` for the update), its cause is the
error of the store, and the failing statement is the last one issued. -/
theorem PutAlert_error_iff_statement_fails (db : Store) (a : NewsAlert) :
    ((PutAlert db a).2.2 ≠ none ↔
      ∃ k, k < a.Sentences.length + 2 ∧ db.outcome k ≠ none) ∧
    (∀ (k : Nat) (msg : String), k < a.Sentences.length + 2 →
      (∀ j, j < k → db.outcome j = none) → db.outcome k = some msg →
      (PutAlert db a).2.2 = some
        (if k = 0 then .wrap (.driver msg) "unable to insert alert"
         else if k ≤ a.Sentences.length then
           .wrap (.wrap (.driver msg) "unable to insert sentence") "unable to insert sentence"
         else .wrap (.driver msg) "unable to set top sentence ID") ∧
      (∀ e, (PutAlert db a).2.2 = some e → e.cause = .driver msg) ∧
      (PutAlert db a).1.issued.length = db.issued.length + (k + 1)) := by
  have hfail : ∀ (k : Nat) (msg : String), k < a.Sentences.length + 2 →
      (∀ j, j < k → db.outcome j = none) → db.outcome k = some msg →
      (PutAlert db a).2.2 = some (stepError a.Sentences.length k msg) ∧
      (PutAlert db a).1.issued.length = db.issued.length + (k + 1) := by
    intro k msg hk hbefore hat
    obtain ⟨db1, h1, h2, -⟩ := PutAlert_fail db a k msg hk hbefore hat
    rw [h1]
    exact ⟨rfl, h2⟩
  refine ⟨⟨?_, ?_⟩, ?_⟩
  · intro herr
    by_contra hnone
    apply herr
    rw [PutAlert_ok db a]
    intro k hk
    by_contra hk2
    exact hnone ⟨k, hk, hk2⟩
  · intro hex
    classical
    have hmin := Nat.find_spec hex
    have hlt := fun j (hj : j < Nat.find hex) => Nat.find_min hex hj
    obtain ⟨msg, hmsg⟩ := Option.ne_none_iff_exists'.mp hmin.2
    have h := (hfail (Nat.find hex) msg hmin.1
      (fun j hj => by
        by_contra hne
        exact hlt j hj ⟨by omega, hne⟩) hmsg).1
    rw [h]
    simp
  · intro k msg hk hbefore hat
    obtain ⟨h1, h2⟩ := hfail k msg hk hbefore hat
    refine ⟨h1, ?_, h2⟩
    intro e he
    rw [h1] at he
    simp only [Option.some.injEq] at he
    subst he
    unfold stepError
    split_ifs <;> rfl

/-- C9 at `sampleAlert` on a store whose third statement, the second sentence insert,
fails: two statements succeed, the third is the last one issued. -/
theorem PutAlert_error_iff_statement_fails_witness :
    (PutAlert { sampleStore with faults := [none, none, some "deadlock"] } sampleAlert).2.2
      = some (.wrap (.wrap (.driver "deadlock") "unable to insert sentence")
          "unable to insert sentence") ∧
    (PutAlert { sampleStore with faults := [none, none, some "deadlock"] } sampleAlert).1.issued.length
      = 3 :=
  ⟨((PutAlert_error_iff_statement_fails
      { sampleStore with faults := [none, none, some "deadlock"] } sampleAlert).2
      2 "deadlock" (by decide) (by decide) (by decide)).1,
   ((PutAlert_error_iff_statement_fails
      { sampleStore with faults := [none, none, some "deadlock"] } sampleAlert).2
      2 "deadlock" (by decide) (by decide) (by decide)).2.2⟩

/-- The alert behind the pointer handed to `PutAlert` is never written. -/
theorem PutAlert_alert_unchanged (db : Store) (a : NewsAlert) : (PutAlert db a).2.1 = a := by
  unfold PutAlert
  split
  · rfl
  · split
    · rfl
    · split <;> rfl

/-- C10: `PutAlert` keeps the generated identifier to itself.  On `sampleStore`,
`PutAlert` of `sampleAlert` returns nil and stores the alert under the identifier 1,
while the `ID` of the alert of the caller is still 0; `FindPossibleLikeAlerts` on that
alert, with a window of 3600, then returns the stored row of the alert itself. -/
theorem PutAlert_does_not_return_identifier :
    (PutAlert sampleStore sampleAlert).2.2 = none ∧
    (PutAlert sampleStore sampleAlert).1.alert.map (fun r => r.id) = [1] ∧
    (PutAlert sampleStore sampleAlert).2.1.ID = 0 ∧
    (FindPossibleLikeAlerts 3600 (PutAlert sampleStore sampleAlert).1
      (PutAlert sampleStore sampleAlert).2.1).2.1.map (fun x => x.ID) = [1] := by
  decide

/-! ## The read path -/

/-- C4: every alert that `FindPossibleLikeAlerts` returns for `a` is scanned from a stored
row whose `top_phrases` contain every tag of `a` and whose timestamp lies between
`a.Timestamp - eventTimeframe` and `a.Timestamp + eventTimeframe`, both included; the one
statement issued is the query with exactly these two bounds, `a.ID` and `a.Tags`. -/
theorem FindPossibleLikeAlerts_superset_in_window (eventTimeframe : Int) (db : Store)
    (a : NewsAlert) :
    (∀ x ∈ (FindPossibleLikeAlerts eventTimeframe db a).2.1,
      (∃ r ∈ db.alert, r.id = x.ID ∧ r.timestamp = x.Timestamp ∧
        r.top_phrases = x.TopPhrases ∧ ∀ t ∈ a.Tags, t ∈ r.top_phrases) ∧
      (∀ t ∈ a.Tags, t ∈ x.TopPhrases) ∧
      a.Timestamp - eventTimeframe ≤ x.Timestamp ∧
      x.Timestamp ≤ a.Timestamp + eventTimeframe) ∧
    (FindPossibleLikeAlerts eventTimeframe db a).1.issued =
      db.issued ++ [Stmt.selectPossibleLike (a.Timestamp - eventTimeframe)
        (a.Timestamp + eventTimeframe) a.ID a.Tags] := by
  unfold FindPossibleLikeAlerts
  refine ⟨?_, ?_⟩
  · intro x hx
    obtain ⟨r, hr, hscan⟩ := scanAlerts_mem _ _ x hx
    obtain ⟨hmem, hlike⟩ := selectPossibleLike_rows db _ _ _ _ r hr
    obtain ⟨hid, hts, hph⟩ := scanned_fields r x hscan
    simp only [possibleLike, Bool.and_eq_true, decide_eq_true_eq, List.all_eq_true,
      List.contains_iff_exists_mem_beq, beq_iff_eq, exists_eq_right'] at hlike
    obtain ⟨⟨⟨h1, h2⟩, -⟩, h4⟩ := hlike
    refine ⟨⟨r, hmem, hid.symm, hts.symm, hph.symm, h4⟩, ?_, ?_, ?_⟩
    · rw [hph]; exact h4
    · rw [hts]; linarith
    · rw [hts]; exact h2
  · simp only
    rw [selectPossibleLike_issued]
    simp [sub_eq_add_neg]

/-- C4 at `probeAlert` on `unorderedStore`: the first row is returned, carries the tag
`storm` and lies in the window from 5 to 25, the bounds bound to the query. -/
theorem FindPossibleLikeAlerts_superset_in_window_witness :
    firstScanned ∈ (FindPossibleLikeAlerts 10 unorderedStore probeAlert).2.1 ∧
    (∀ t ∈ probeAlert.Tags, t ∈ firstScanned.TopPhrases) ∧
    probeAlert.Timestamp - 10 ≤ firstScanned.Timestamp ∧
    firstScanned.Timestamp ≤ probeAlert.Timestamp + 10 ∧
    (FindPossibleLikeAlerts 10 unorderedStore probeAlert).1.issued =
      [Stmt.selectPossibleLike 5 25 9 ["storm"]] :=
  ⟨by decide,
   ((FindPossibleLikeAlerts_superset_in_window 10 unorderedStore probeAlert).1
      firstScanned (by decide)).2.1,
   ((FindPossibleLikeAlerts_superset_in_window 10 unorderedStore probeAlert).1
      firstScanned (by decide)).2.2.1,
   ((FindPossibleLikeAlerts_superset_in_window 10 unorderedStore probeAlert).1
      firstScanned (by decide)).2.2.2,
   (FindPossibleLikeAlerts_superset_in_window 10 unorderedStore probeAlert).2⟩

/-- C5: no alert that `FindPossibleLikeAlerts` returns for `a` has the identifier
`a.ID`. -/
theorem FindPossibleLikeAlerts_excludes_own_identifier (eventTimeframe : Int) (db : Store)
    (a : NewsAlert) :
    ∀ x ∈ (FindPossibleLikeAlerts eventTimeframe db a).2.1, x.ID ≠ a.ID := by
  unfold FindPossibleLikeAlerts
  intro x hx
  obtain ⟨r, hr, hscan⟩ := scanAlerts_mem _ _ x hx
  obtain ⟨-, hlike⟩ := selectPossibleLike_rows db _ _ _ _ r hr
  obtain ⟨hid, -, -⟩ := scanned_fields r x hscan
  simp only [possibleLike, Bool.and_eq_true, decide_eq_true_eq] at hlike
  rw [hid]
  exact hlike.1.2

/-- C5 at `storedProbe`, whose identifier is that of the second row of `unorderedStore`:
the first row is returned, and its identifier differs. -/
theorem FindPossibleLikeAlerts_excludes_own_identifier_witness :
    (FindPossibleLikeAlerts 10 unorderedStore storedProbe).2.1 = [firstScanned] ∧
    firstScanned.ID ≠ storedProbe.ID :=
  ⟨by decide,
   FindPossibleLikeAlerts_excludes_own_identifier 10 unorderedStore storedProbe firstScanned
     (by decide)⟩

theorem scanned_sublist (rows : List AlertRow) :
    ((rows.filterMap scanned).map (fun x => (x.ID, x.Timestamp))).Sublist
      (rows.map (fun r => (r.id, r.timestamp))) := by
  induction rows with
  | nil => simp
  | cons r rest ih =>
    rw [List.filterMap_cons]
    cases hs : scanned r with
    | none => exact List.Sublist.cons _ ih
    | some x =>
      obtain ⟨hid, hts, -⟩ := scanned_fields r x hs
      simp only [List.map_cons, hid, hts]
      exact List.Sublist.cons₂ _ ih

theorem scanAlerts_result (rows : List AlertRow) (err : Option Error) :
    (scanAlerts rows err).1 = [] ∨
    (err = none ∧ (scanAlerts rows err).1 = rows.filterMap scanned) := by
  unfold scanAlerts
  cases err with
  | some e => left; rfl
  | none =>
    rcases scanLoop_spec rows [] with h | h
    · left; exact h.2
    · right; exact ⟨rfl, by simpa using h.2⟩

theorem selectPossibleLike_result (db : Store) (start stop id : Int) (tags : List String) :
    (db.selectPossibleLike start stop id tags).2 =
      match db.outcome 0 with
      | some m => ([], some (.driver m))
      | none => (db.alert.filter (possibleLike start stop id tags), none) := by
  unfold Store.selectPossibleLike
  rw [receive_eq]
  cases db.outcome 0 <;> rfl

/-- When the store answers the statement of `FindPossibleLikeAlerts` with an error, as a
PostgreSQL store does to the statement as written, the call returns no alert and that
error wrapped as `unable to run query`. -/
theorem FindPossibleLikeAlerts_rejected (eventTimeframe : Int) (db : Store) (a : NewsAlert)
    (msg : String) (h : db.outcome 0 = some msg) :
    (FindPossibleLikeAlerts eventTimeframe db a).2 =
      ([], some (.wrap (.driver msg) "unable to run query")) := by
  have hsel := selectPossibleLike_result db (a.Timestamp + -eventTimeframe)
    (a.Timestamp + eventTimeframe) a.ID a.Tags
  rw [h] at hsel
  show scanAlerts
      (db.selectPossibleLike (a.Timestamp + -eventTimeframe)
        (a.Timestamp + eventTimeframe) a.ID a.Tags).2.1
      (db.selectPossibleLike (a.Timestamp + -eventTimeframe)
        (a.Timestamp + eventTimeframe) a.ID a.Tags).2.2 = _
  rw [show (db.selectPossibleLike (a.Timestamp + -eventTimeframe)
        (a.Timestamp + eventTimeframe) a.ID a.Tags).2.1 = [] from congrArg Prod.fst hsel,
    show (db.selectPossibleLike (a.Timestamp + -eventTimeframe)
        (a.Timestamp + eventTimeframe) a.ID a.Tags).2.2 = some (.driver msg)
      from congrArg Prod.snd hsel]
  rfl

/-- The alerts `FindPossibleLikeAlerts` returns are scanned from rows of the alert table,
in the order of the table. -/
theorem FindPossibleLikeAlerts_sublist (eventTimeframe : Int) (db : Store) (a : NewsAlert) :
    ((FindPossibleLikeAlerts eventTimeframe db a).2.1.map
        (fun x => (x.ID, x.Timestamp))).Sublist
      (db.alert.map (fun r => (r.id, r.timestamp))) := by
  unfold FindPossibleLikeAlerts
  simp only
  rcases scanAlerts_result
      (db.selectPossibleLike (a.Timestamp + -eventTimeframe) (a.Timestamp + eventTimeframe)
        a.ID a.Tags).2.1
      (db.selectPossibleLike (a.Timestamp + -eventTimeframe) (a.Timestamp + eventTimeframe)
        a.ID a.Tags).2.2 with h | ⟨-, h⟩
  · rw [h]; simp
  · rw [h]
    refine (scanned_sublist _).trans (List.Sublist.map _ ?_)
    rw [selectPossibleLike_result]
    cases db.outcome 0 with
    | some m => simp
    | none => exact List.filter_sublist _

/-- On a store that accepts the statement of `FindPossibleLikeAlerts`, the selected alerts
come back in the order in which the alert table yields its rows (identifiers and
timestamps form a sublist of those of the table), neither the statement nor `scanAlerts`
ordering them: the result is ascending by timestamp whenever the table is, and two calls
on stores with the same alert table, answering the query alike, return the same sequence
and error. -/
theorem FindPossibleLikeAlerts_keeps_store_order (eventTimeframe : Int) (db : Store)
    (a : NewsAlert) :
    ((FindPossibleLikeAlerts eventTimeframe db a).2.1.map
        (fun x => (x.ID, x.Timestamp))).Sublist
      (db.alert.map (fun r => (r.id, r.timestamp))) ∧
    (db.alert.Pairwise (fun r s => r.timestamp ≤ s.timestamp) →
      (FindPossibleLikeAlerts eventTimeframe db a).2.1.Pairwise
        (fun x y => x.Timestamp ≤ y.Timestamp)) ∧
    (∀ db2 : Store, db2.alert = db.alert → db2.outcome 0 = db.outcome 0 →
      (FindPossibleLikeAlerts eventTimeframe db2 a).2 =
        (FindPossibleLikeAlerts eventTimeframe db a).2) := by
  refine ⟨FindPossibleLikeAlerts_sublist eventTimeframe db a, ?_, ?_⟩
  · intro hsorted
    have hsub := FindPossibleLikeAlerts_sublist eventTimeframe db a
    have h1 : (db.alert.map (fun r => (r.id, r.timestamp))).Pairwise
        (fun p q => p.2 ≤ q.2) := by
      rw [List.pairwise_map]
      exact hsorted
    have h2 := h1.sublist hsub
    rw [List.pairwise_map] at h2
    exact h2
  · intro db2 halert hout
    have h : ∀ d : Store, (FindPossibleLikeAlerts eventTimeframe d a).2 =
        scanAlerts
          (d.selectPossibleLike (a.Timestamp + -eventTimeframe)
            (a.Timestamp + eventTimeframe) a.ID a.Tags).2.1
          (d.selectPossibleLike (a.Timestamp + -eventTimeframe)
            (a.Timestamp + eventTimeframe) a.ID a.Tags).2.2 := fun d => rfl
    rw [h db2, h db, selectPossibleLike_result, selectPossibleLike_result, halert, hout]

/-- C6: `FindAlertsByTimeframe` cuts both bounds down to whole seconds.  On
`subsecondStore`, whose alert has the time 10.5 s, the call from 10.2 s to 10.7 s binds
the seconds 10 and 10 to the query and returns no error and no alert, although
10.2 s ≤ 10.5 s ≤ 10.7 s. -/
theorem FindAlertsByTimeframe_misses_subsecond :
    subsecondStore.alert.map (fun r => r.timestamp) = [10500000000] ∧
    (10200000000 : Int) ≤ 10500000000 ∧ (10500000000 : Int) ≤ 10700000000 ∧
    (FindAlertsByTimeframe subsecondStore 10200000000 10700000000).1.issued
      = [Stmt.selectByTimeframe 10 10] ∧
    (FindAlertsByTimeframe subsecondStore 10200000000 10700000000).2 = ([], none) := by
  decide

/-! ## Events -/

/-- C8, refuted as stated: after two calls of `UpsertEvent` with the same event on
`sampleStore`, no event is stored, and `FindEventsByAlertIDs` over a member alert
identifier returns no error and no event. -/
theorem UpsertEvent_stores_nothing :
    (UpsertEvent (UpsertEvent sampleStore { ID := 0, AlertIDs := [1, 2] }).1
      { ID := 0, AlertIDs := [1, 2] }).1.event = [] ∧
    (FindEventsByAlertIDs
      (UpsertEvent (UpsertEvent sampleStore { ID := 0, AlertIDs := [1, 2] }).1
        { ID := 0, AlertIDs := [1, 2] }).1 [1]).2 = ([], none) := by
  decide

/-- C8, amended: `UpsertEvent` returns nil and leaves the store as it was, so that a
second call with the same event returns nil and leaves the state of the first call; it
stores no event, and `FindEventsByAlertIDs` returns nil, no event and the store as it
was. -/
theorem UpsertEvent_idempotent_stub (db : Store) (e : NewsEvent) (ids : List Int) :
    (UpsertEvent db e).2 = none ∧
    (UpsertEvent db e).1 = db ∧
    UpsertEvent (UpsertEvent db e).1 e = UpsertEvent db e ∧
    FindEventsByAlertIDs (UpsertEvent (UpsertEvent db e).1 e).1 ids = (db, [], none) :=
  ⟨rfl, rfl, rfl, rfl⟩

end Fetch
